import Mathlib

/-!
# Verification of the tap-klaviyo incremental REST extraction core

A shallow embedding, in Lean, of the selection / pagination / request-building /
authentication / post-processing logic of `tap_klaviyo` (files `client.py`,
`tap.py`, `streams.py`), together with theorems settling the specification's
claims about it.

Python dictionaries are modelled as insertion-ordered association lists with
overwrite-on-assign semantics; decoded JSON bodies as an inductive `Json` type
(numbers as integers); raising code as `Except String`-valued functions;
mutable authenticator state as explicit state passing.
-/

set_option maxHeartbeats 1000000

namespace TapKlaviyo

mutual

/-- Decoded JSON value, as handed around by `response.json()`.
Numeric values are modelled as integers (the fields the code touches are
integer-valued where it matters). -/
inductive Json where
  | null : Json
  | str (s : String) : Json
  | num (n : Int) : Json
  | bool (b : Bool) : Json
  | obj (fields : JFields) : Json
  | arr (elems : JElems) : Json
deriving DecidableEq, Repr

/-- The ordered field list of a JSON object (a Python dict). -/
inductive JFields where
  | nil : JFields
  | cons (k : String) (v : Json) (rest : JFields) : JFields
deriving DecidableEq, Repr

/-- The ordered element list of a JSON array (a Python list). -/
inductive JElems where
  | nil : JElems
  | cons (v : Json) (rest : JElems) : JElems
deriving DecidableEq, Repr

end

namespace JFields

/-- First-match lookup (Python dict lookup; dict keys are unique in Python,
so first match is the only match). -/
def lookup (k : String) : JFields → Option Json
  | nil => none
  | cons k' v rest => if k' = k then some v else lookup k rest

/-- Python `k in d`. -/
def hasKey (k : String) (fs : JFields) : Bool := (fs.lookup k).isSome

/-- Python dict assignment `d[k] = v`: overwrite in place when the key is
present, append at the end otherwise. -/
def set (fs : JFields) (k : String) (v : Json) : JFields :=
  match fs with
  | nil => cons k v nil
  | cons k' v' rest => if k' = k then cons k v rest else cons k' v' (set rest k v)

/-- Build a field list from a Lean list of pairs (rightmost wins, as in a
Python dict literal), by repeated assignment. -/
def ofPairs (ps : List (String × Json)) : JFields :=
  ps.foldl (fun acc p => acc.set p.1 p.2) nil

end JFields

namespace JElems

/-- Convert to a Lean list for iteration. -/
def toList : JElems → List Json
  | nil => []
  | cons v rest => v :: toList rest

end JElems

namespace Json

/-- Python truthiness of a JSON value (`bool(x)`). -/
def pyTruthy : Json → Bool
  | null => false
  | str s => !(s == "")
  | num n => !(n == 0)
  | bool b => b
  | obj .nil => false
  | obj (.cons _ _ _) => true
  | arr .nil => false
  | arr (.cons _ _) => true

/-- Python `str()` of a JSON value, as used in f-string interpolation.
The code under study only ever interpolates strings. -/
def pystr : Json → String
  | null => "None"
  | str s => s
  | num n => toString n
  | bool b => if b then "True" else "False"
  | obj _ => "<dict>"
  | arr _ => "<list>"

end Json

/-- Python `d.get(k)` (default `None`): returns the value, `null` when the key
is missing, and raises `AttributeError` when the receiver is not a dict. -/
def pyGet (j : Json) (k : String) : Except String Json :=
  match j with
  | Json.obj fields => Except.ok ((fields.lookup k).getD Json.null)
  | _ => Except.error "AttributeError"

/-- Python `d.get(k, default)` with an explicit default. -/
def pyGetD (j : Json) (k : String) (dflt : Json) : Except String Json :=
  match j with
  | Json.obj fields => Except.ok ((fields.lookup k).getD dflt)
  | _ => Except.error "AttributeError"

/-- Python `d[k]` on a decoded JSON value: raises `KeyError` when the key is
missing and `TypeError` when the receiver is not a dict. -/
def pyIndex (j : Json) (k : String) : Except String Json :=
  match j with
  | Json.obj fields =>
    match fields.lookup k with
    | some v => Except.ok v
    | none => Except.error "KeyError"
  | _ => Except.error "TypeError"

/-- Python `d[k] = v` on a decoded JSON value: raises when the receiver is not
a dict, otherwise assigns (returning the updated object, since the embedding
is functional where the source mutates in place). -/
def pySet (j : Json) (k : String) (v : Json) : Except String Json :=
  match j with
  | Json.obj fields => Except.ok (Json.obj (fields.set k v))
  | _ => Except.error "TypeError"

/-- Does the first character list occur at the start of the second? -/
def charsStartWith : List Char → List Char → Bool
  | [], _ => true
  | _ :: _, [] => false
  | a :: as, b :: bs => a == b && charsStartWith as bs

/-- Does the first character list occur anywhere inside the second? -/
def charsContain (needle : List Char) : List Char → Bool
  | [] => needle.isEmpty
  | c :: cs => charsStartWith needle (c :: cs) || charsContain needle cs

/-- The keys of a field list, in order (Python dict iteration order). -/
def JFields.keys : JFields → List String
  | .nil => []
  | .cons k _ rest => k :: JFields.keys rest

/-- Python `k in x` for a string `k`: key membership in a dict, substring
membership in a string, element membership in a list, and `TypeError` on
non-container values (`None`, numbers, booleans). -/
def pyContains (k : String) (j : Json) : Except String Bool :=
  match j with
  | Json.obj fields => Except.ok (fields.hasKey k)
  | Json.str s => Except.ok (charsContain k.data s.data)
  | Json.arr elems => Except.ok (elems.toList.any (fun e => e = Json.str k))
  | _ => Except.error "TypeError"

/-- Python `for x in j`: a list yields its elements, a string its
one-character substrings, a dict its keys; iterating anything else raises
`TypeError`. -/
def pyIterate (j : Json) : Except String (List Json) :=
  match j with
  | Json.arr elems => Except.ok elems.toList
  | Json.str s => Except.ok (s.data.map (fun c => Json.str (String.mk [c])))
  | Json.obj fields => Except.ok (fields.keys.map Json.str)
  | _ => Except.error "TypeError"

/-- `requests.Response.raise_for_status` raises `HTTPError` exactly for
client-error and server-error codes, `400 <= status < 600`. -/
def raisesForStatus (status : Nat) : Prop := 400 ≤ status ∧ status < 600

instance (s : Nat) : Decidable (raisesForStatus s) :=
  inferInstanceAs (Decidable (400 ≤ s ∧ s < 600))

/-- A URL-parameter dictionary (`params: dict[str, Any]`), insertion ordered. -/
abbrev ParamDict := List (String × Json)

/-- Python dict assignment `d[k] = v` on a parameter dictionary: update in
place when present, append otherwise. -/
def dictInsert : ParamDict → String → Json → ParamDict
  | [], k, v => [(k, v)]
  | (k', v') :: rest, k, v =>
    if k' = k then (k, v) :: rest else (k', v') :: dictInsert rest k v

/-- Python dict lookup `d.get(k)` on a parameter dictionary. -/
def dictLookup : ParamDict → String → Option Json
  | [], _ => none
  | (k', v) :: rest, k => if k' = k then some v else dictLookup rest k

/-- Python `d.update(pairs)`: left-to-right assignment of each pair. -/
def dictUpdate (d : ParamDict) (pairs : List (String × Json)) : ParamDict :=
  pairs.foldl (fun acc p => dictInsert acc p.1 p.2) d

theorem dictLookup_dictInsert_self (d : ParamDict) (k : String) (v : Json) :
    dictLookup (dictInsert d k v) k = some v := by
  induction d with
  | nil => simp [dictInsert, dictLookup]
  | cons hd tl ih =>
    by_cases hk : hd.1 = k
    · simp [dictInsert, hk, dictLookup]
    · simp [dictInsert, hk, dictLookup, ih]

theorem dictLookup_dictInsert_ne (d : ParamDict) (k k' : String) (v : Json)
    (h : k' ≠ k) : dictLookup (dictInsert d k v) k' = dictLookup d k' := by
  induction d with
  | nil => simp [dictInsert, dictLookup, Ne.symm h]
  | cons hd tl ih =>
    by_cases hk : hd.1 = k
    · simp [dictInsert, hk, dictLookup, Ne.symm h, ih]
    · by_cases hk' : hd.1 = k'
      · simp [dictInsert, hk, hk', dictLookup, h]
      · simp [dictInsert, hk, hk', dictLookup, ih]

/-! ## Date normalization (`client.py` lines 20–33)

`_isodate_from_date_string` first tries `datetime.fromisoformat` on the input
with every `'Z'` replaced by `'+00:00'`, falls back to
`datetime.strptime(date_string, "%Y-%m-%d")`, then returns
`dt.replace(tzinfo=UTC).isoformat()`; when both parses fail the `ValueError`
propagates. The stdlib parsers are modelled on the extended ISO-8601 grammar
`YYYY-MM-DD[{T or space}HH[:MM[:SS[.ffffff]]][±HH:MM]]` that the code relies
on. -/

instance instDecidableEqExceptSS {ε α : Type} [DecidableEq ε] [DecidableEq α] :
    DecidableEq (Except ε α) := fun a b =>
  match a, b with
  | .ok x, .ok y =>
    if h : x = y then isTrue (by rw [h])
    else isFalse (by intro hc; cases hc; exact h rfl)
  | .error x, .error y =>
    if h : x = y then isTrue (by rw [h])
    else isFalse (by intro hc; cases hc; exact h rfl)
  | .ok _, .error _ => isFalse (by intro hc; cases hc)
  | .error _, .ok _ => isFalse (by intro hc; cases hc)

/-- Python `s.replace('Z', '+00:00')` as the source applies it: every
occurrence of the single-character pattern `'Z'` is replaced. -/
def pyReplaceZ (s : String) : String :=
  String.mk (s.data.foldr
    (fun ch acc => (if ch = 'Z' then ['+', '0', '0', ':', '0', '0'] else [ch]) ++ acc) [])

/-- A parsed `datetime.datetime`: calendar fields, microseconds, and an
optional fixed UTC offset in minutes (`None` = naive). -/
structure PyDateTime where
  year : Nat
  month : Nat
  day : Nat
  hour : Nat
  minute : Nat
  second : Nat
  microsecond : Nat
  tzOffsetMinutes : Option Int
deriving DecidableEq, Repr

def isLeapYear (y : Nat) : Bool :=
  y % 4 == 0 && (y % 100 != 0 || y % 400 == 0)

def daysInMonth (y m : Nat) : Nat :=
  if m = 2 then (if isLeapYear y then 29 else 28)
  else if m = 4 ∨ m = 6 ∨ m = 9 ∨ m = 11 then 30
  else 31

/-- Consume exactly `n` decimal digits, returning their value. -/
def takeDigits : Nat → Nat → List Char → Option (Nat × List Char)
  | 0, acc, cs => some (acc, cs)
  | n + 1, acc, c :: cs =>
    if c.isDigit then takeDigits n (acc * 10 + (c.toNat - 48)) cs else none
  | _ + 1, _, [] => none

/-- Consume one expected character. -/
def expectChar (c : Char) : List Char → Option (List Char)
  | c' :: cs => if c' = c then some cs else none
  | [] => none

/-- Parse `YYYY-MM-DD` (digits and separators only; range checks happen in the
callers). -/
def parseDateCore (cs : List Char) : Option (Nat × Nat × Nat × List Char) := do
  let (y, cs) ← takeDigits 4 0 cs
  let cs ← expectChar '-' cs
  let (mo, cs) ← takeDigits 2 0 cs
  let cs ← expectChar '-' cs
  let (d, cs) ← takeDigits 2 0 cs
  pure (y, mo, d, cs)

/-- Parse a fractional-seconds suffix `.d+` into microseconds (digits beyond
the sixth are truncated, as CPython does). -/
def parseFraction (cs : List Char) : Option (Nat × List Char) :=
  match cs with
  | '.' :: rest =>
    let ds := rest.takeWhile Char.isDigit
    let rest' := rest.dropWhile Char.isDigit
    if ds.isEmpty then none
    else
      let ds6 := ds.take 6
      let v := ds6.foldl (fun a c => a * 10 + (c.toNat - 48)) 0
      some (v * 10 ^ (6 - ds6.length), rest')
  | _ => none

/-- Parse a UTC offset `±HH:MM` into signed minutes. -/
def parseOffset (cs : List Char) : Option (Int × List Char) :=
  let core : List Char → Option (Nat × List Char) := fun cs => do
    let (hh, cs) ← takeDigits 2 0 cs
    let cs ← expectChar ':' cs
    let (mm, cs) ← takeDigits 2 0 cs
    if hh ≤ 23 ∧ mm ≤ 59 then pure (hh * 60 + mm, cs) else none
  match cs with
  | '+' :: rest => (core rest).map (fun p => ((p.1 : Int), p.2))
  | '-' :: rest => (core rest).map (fun p => (-(p.1 : Int), p.2))
  | _ => none

/-- Parse `HH[:MM[:SS[.ffffff]]]`, returning hour, minute, second,
microsecond and the remaining input. -/
def parseTimeCore (cs : List Char) : Option (Nat × Nat × Nat × Nat × List Char) := do
  let (h, cs) ← takeDigits 2 0 cs
  match expectChar ':' cs with
  | none => pure (h, 0, 0, 0, cs)
  | some cs => do
    let (mi, cs) ← takeDigits 2 0 cs
    match expectChar ':' cs with
    | none => pure (h, mi, 0, 0, cs)
    | some cs => do
      let (sec, cs) ← takeDigits 2 0 cs
      match parseFraction cs with
      | none => pure (h, mi, sec, 0, cs)
      | some (us, cs) => pure (h, mi, sec, us, cs)

def validDate (y mo d : Nat) : Bool :=
  1 ≤ y && y ≤ 9999 && 1 ≤ mo && mo ≤ 12 && 1 ≤ d && d ≤ daysInMonth y mo

def validTime (h mi s : Nat) : Bool :=
  h ≤ 23 && mi ≤ 59 && s ≤ 59

/-- Model of `datetime.fromisoformat` on the extended ISO-8601 grammar used by
the code: a calendar date, optionally a `'T'`- or space-separated time with
optional fraction, optionally a `±HH:MM` offset, and nothing left over. -/
def fromisoformatM (s : String) : Option PyDateTime :=
  match parseDateCore s.data with
  | none => none
  | some (y, mo, d, rest) =>
    if validDate y mo d then
      match rest with
      | [] => some ⟨y, mo, d, 0, 0, 0, 0, none⟩
      | sep :: rest' =>
        if sep = 'T' ∨ sep = ' ' then
          match parseTimeCore rest' with
          | none => none
          | some (h, mi, sec, us, rest'') =>
            if validTime h mi sec then
              match rest'' with
              | [] => some ⟨y, mo, d, h, mi, sec, us, none⟩
              | _ =>
                match parseOffset rest'' with
                | some (off, []) => some ⟨y, mo, d, h, mi, sec, us, some off⟩
                | _ => none
            else none
        else none
    else none

/-- Model of `datetime.strptime(s, "%Y-%m-%d")`: a bare calendar date with
nothing left over. -/
def strptimeYmdM (s : String) : Option PyDateTime :=
  match parseDateCore s.data with
  | some (y, mo, d, []) =>
    if validDate y mo d then some ⟨y, mo, d, 0, 0, 0, 0, none⟩ else none
  | _ => none

/-- Zero-padded decimal rendering. -/
def padNum (width n : Nat) : String :=
  let s := toString n
  String.mk (List.replicate (width - s.length) '0') ++ s

/-- `datetime.isoformat` of the offset suffix. -/
def isoTz : Option Int → String
  | none => ""
  | some off =>
    if off ≥ 0 then
      "+" ++ padNum 2 (off.natAbs / 60) ++ ":" ++ padNum 2 (off.natAbs % 60)
    else
      "-" ++ padNum 2 (off.natAbs / 60) ++ ":" ++ padNum 2 (off.natAbs % 60)

/-- `datetime.isoformat` without the offset suffix. -/
def isoMain (dt : PyDateTime) : String :=
  padNum 4 dt.year ++ "-" ++ padNum 2 dt.month ++ "-" ++ padNum 2 dt.day ++
    "T" ++ padNum 2 dt.hour ++ ":" ++ padNum 2 dt.minute ++ ":" ++
    padNum 2 dt.second ++
    (if dt.microsecond = 0 then "" else "." ++ padNum 6 dt.microsecond)

/-- `datetime.isoformat`. -/
def isoformat (dt : PyDateTime) : String :=
  isoMain dt ++ isoTz dt.tzOffsetMinutes

/-- `client.py` lines 25–33: `_isodate_from_date_string`. On both parse paths
the result is `dt.replace(tzinfo=UTC).isoformat()`; a double parse failure
raises `ValueError`. -/
def _isodate_from_date_string (date_string : String) : Except String String :=
  match fromisoformatM (pyReplaceZ date_string) with
  | some dt => Except.ok (isoformat { dt with tzOffsetMinutes := some 0 })
  | none =>
    match strptimeYmdM date_string with
    | some dt => Except.ok (isoformat { dt with tzOffsetMinutes := some 0 })
    | none => Except.error "ValueError"

/-- `client.py` line 22: `DEFAULT_START_DATE = datetime(2000, 1, 1,
tzinfo=UTC).isoformat()`. -/
def DEFAULT_START_DATE : String := isoformat ⟨2000, 1, 1, 0, 0, 0, 0, some 0⟩

/-! ## Request building (`client.py` `KlaviyoStream.get_url_params`) -/

/-- The per-stream static declaration: the class attributes each stream class
in `streams.py` sets (`None`-valued attributes become `none`). -/
structure StreamDesc where
  name : String
  path : String
  primaryKeys : List String
  replicationKey : Option String
  isSorted : Bool
  maxPageSize : Option Nat
deriving Repr

/-- The slice of the resolved configuration the embedded functions consult. -/
structure Config where
  startDate : Option String
deriving Repr

/-- Split a character list at every occurrence of a separator character
(`str.split(sep)` for a one-character separator). -/
def splitOnChar (c : Char) : List Char → List (List Char)
  | [] => [[]]
  | ch :: rest =>
    let r := splitOnChar c rest
    if ch = c then [] :: r
    else
      match r with
      | [] => [[ch]]
      | hd :: tl => (ch :: hd) :: tl

/-- Split a character list at the first occurrence of a separator character
(`str.split(sep, 1)`); `none` when the separator does not occur. -/
def splitAtFirst (c : Char) : List Char → Option (List Char × List Char)
  | [] => none
  | ch :: rest =>
    if ch = c then some ([], rest)
    else (splitAtFirst c rest).map (fun p => (ch :: p.1, p.2))

/-- `urllib.parse.parse_qsl` on a query string, as the source applies it to a
continuation URL's query: split on `'&'`, split each part at the first `'='`,
drop parts with no `'='` or an empty value (the default
`keep_blank_values=False`). Percent-decoding is not modelled; the model's
queries stand for already-decoded text. -/
def parseQsl (q : String) : List (String × String) :=
  (splitOnChar '&' q.data).filterMap (fun part =>
    match splitAtFirst '=' part with
    | none => none
    | some (k, v) => if v = [] then none else some (String.mk k, String.mk v))

/-- `client.py` lines 147–152: the effective watermark for the incremental
filter — the persisted starting timestamp for this context if any
(`get_starting_timestamp`, rendered to a string), else a truthy configured
`start_date` normalized by `_isodate_from_date_string` (whose `ValueError`
propagates), else `DEFAULT_START_DATE`. -/
def resolveWatermark (cfg : Config) (startingTs : Option String) :
    Except String String :=
  match startingTs with
  | some ts => Except.ok ts
  | none =>
    match cfg.startDate with
    | some sd =>
      if sd = "" then Except.ok DEFAULT_START_DATE
      else _isodate_from_date_string sd
    | none => Except.ok DEFAULT_START_DATE

/-- `client.py` lines 159–160: `if self.max_page_size: params["page[size]"] =
self.max_page_size` (Python truthiness: `None` and `0` both skip). -/
def withPageSize (desc : StreamDesc) (d : ParamDict) : ParamDict :=
  match desc.maxPageSize with
  | some n => if n ≠ 0 then dictInsert d "page[size]" (Json.num (n : Int)) else d
  | none => d

/-- `client.py` lines 136–161: `KlaviyoStream.get_url_params`. The
continuation token is modelled by its query string (`next_page_token.query`);
`none` models a `None` token (a present `ParseResult` is always truthy).
Steps, in source order: merge the continuation's parsed query params; when the
stream declares a replication key, resolve the watermark, emit `sort` when
`is_sorted`, and emit the freshly computed greater-than `filter`; finally emit
`page[size]` when a page size is declared. -/
def getUrlParams (desc : StreamDesc) (cfg : Config) (startingTs : Option String)
    (nextPageToken : Option String) : Except String ParamDict :=
  let params0 : ParamDict :=
    match nextPageToken with
    | some q => dictUpdate [] ((parseQsl q).map (fun p => (p.1, Json.str p.2)))
    | none => []
  match desc.replicationKey with
  | some rk => do
    let ft ← resolveWatermark cfg startingTs
    let params1 :=
      if desc.isSorted then dictInsert params0 "sort" (Json.str rk) else params0
    let params2 :=
      dictInsert params1 "filter"
        (Json.str ("greater-than(" ++ rk ++ "," ++ ft ++ ")"))
    pure (withPageSize desc params2)
  | none => pure (withPageSize desc params0)

/-! ## Stream declarations (`streams.py`) -/

def eventsDesc : StreamDesc :=
  ⟨"events", "/events", ["id"], some "datetime", true, none⟩

def campaignsDesc : StreamDesc :=
  ⟨"campaigns", "/campaigns", ["id"], some "updated_at", true, none⟩

def profilesDesc : StreamDesc :=
  ⟨"profiles", "/profiles", ["id"], some "updated", true, some 100⟩

def metricsDesc : StreamDesc :=
  ⟨"metrics", "/metrics", ["id"], none, false, none⟩

def listsDesc : StreamDesc :=
  ⟨"lists", "/lists", ["id"], some "updated", false, none⟩

def listPersonDesc : StreamDesc :=
  ⟨"listperson", "/lists/{list_id}/relationships/profiles/", ["id"], none,
    false, some 1000⟩

def flowsDesc : StreamDesc :=
  ⟨"flows", "/flows", ["id"], some "updated", true, none⟩

def templatesDesc : StreamDesc :=
  ⟨"templates", "/templates", ["id"], some "updated", true, none⟩

/-- `streams.py` lines 55–64: `CampaignsStream.partitions` — two static
partition contexts carrying a channel filter each. -/
def campaignsPartitions : List Json :=
  [Json.obj (.cons "filter" (Json.str "equals(messages.channel,'email')") .nil),
   Json.obj (.cons "filter" (Json.str "equals(messages.channel,'sms')") .nil)]

/-- `streams.py` lines 66–78: `CampaignsStream.get_url_params` — the base
params, then, when the context is truthy, `url_params["filter"] =
f"and({parent_filter},{context['filter']})"` where `parent_filter` is
`url_params["filter"]` (a `KeyError` when absent). -/
def campaignsGetUrlParams (cfg : Config) (startingTs : Option String)
    (context : Option Json) (nextPageToken : Option String) :
    Except String ParamDict := do
  let ps ← getUrlParams campaignsDesc cfg startingTs nextPageToken
  match context with
  | none => pure ps
  | some ctx =>
    if ctx.pyTruthy then do
      let parentFilter ←
        match dictLookup ps "filter" with
        | some v => Except.ok v
        | none => Except.error "KeyError"
      let ctxFilter ← pyIndex ctx "filter"
      pure (dictInsert ps "filter"
        (Json.str ("and(" ++ parentFilter.pystr ++ "," ++ ctxFilter.pystr ++ ")")))
    else pure ps

/-! ## Stream selection (`tap.py` `discover_streams`,
`client.py` `get_records`) -/

/-- The declared streams, in the order `discover_streams` instantiates them. -/
def availableStreamNames : List String :=
  ["events", "campaigns", "metrics", "profiles", "lists", "listperson",
   "flows", "templates"]

/-- The stream-name component of a selection directive:
`selection.split('.')[0]`, i.e. everything before the first `'.'`. -/
def streamNameComponent (s : String) : String :=
  String.mk (s.data.takeWhile (fun c => c ≠ '.'))

/-- `tap.py` lines 65–76: fold the `select` directives into the `selected` and
`excluded` stream-name sets — a directive starting with `'!'` contributes the
stream-name component of its remainder (`selection[1:].split('.')[0]`) to
`excluded`, any other directive contributes `selection.split('.')[0]` to
`selected`. -/
def parseSelect (select : List String) : List String × List String :=
  select.foldl
    (fun acc sel =>
      match sel.data with
      | '!' :: rest => (acc.1, acc.2 ++ [streamNameComponent (String.mk rest)])
      | _ => (acc.1 ++ [streamNameComponent sel], acc.2))
    ([], [])

/-- `tap.py` lines 82–94: keep, in declaration order, every stream whose name
is not excluded and is selected (`continue` on excluded, append only when
selected). Returns the names of the streams the run will contain. -/
def discoverStreams (select : List String) : List String :=
  let sel := parseSelect select
  availableStreamNames.filter (fun n => !sel.2.contains n && sel.1.contains n)

/-- `client.py` lines 168–171: the record-level gate in
`KlaviyoStream.get_records` — skip unless the `selected_streams` config list
is empty/absent or contains the stream's name. -/
def getRecordsGate (selectedStreams : List String) (name : String) : Bool :=
  selectedStreams.isEmpty || selectedStreams.contains name

/-! ## Pagination (`client.py` `KlaviyoPaginator`) -/

/-- `client.py` lines 39–41: `KlaviyoPaginator.get_next_url` — `data =
response.json(); return data.get("links").get("next")`. Raises
`AttributeError` (via `pyGet`) when the body is not a dict or when its
`links` value is not a dict (in particular when `links` is absent, since
`data.get("links")` is then `None`). -/
def get_next_url (body : Json) : Except String Json := do
  let links ← pyGet body "links"
  pyGet links "next"

/-- Modelled from the singer-sdk dependency (outside this repository):
`BaseHATEOASPaginator.get_next` wraps `get_next_url` as `urlparse(next_url)
if next_url else None`, so a falsy value (absent → `None`, JSON null, empty
string) means exhaustion; the parsed continuation is represented by its URL
string. A truthy non-string raises inside `urlparse`. -/
def paginatorGetNext (body : Json) : Except String (Option String) := do
  let nxt ← get_next_url body
  if nxt.pyTruthy then
    match nxt with
    | Json.str s => pure (some s)
    | _ => Except.error "TypeError"
  else pure none

/-! ## OAuth token lifecycle (`client.py` `KlaviyoAuthenticator`)

Mutable instance state is passed explicitly; the outcome of
`requests.post(TOKEN_URL, ...)` is an oracle argument. Clock instants are
integers (seconds). JSON numbers are integers, so a non-`num` `expires_in`
models any value Python cannot subtract `300` from (e.g. a string or null). -/

/-- The outcome of the `requests.post` call in `_refresh_access_token`:
either the request itself raised, or it produced a status code with a decoded
JSON body (`none` = `response.json()` raised). -/
inductive PostOutcome where
  | raised : PostOutcome
  | response (status : Nat) (body : Option Json) : PostOutcome
deriving DecidableEq, Repr

/-- The authenticator's mutable fields `_access_token` / `_token_expires_at`
(both start as `None`). -/
structure AuthState where
  accessToken : Option Json
  tokenExpiresAt : Option Int
deriving DecidableEq, Repr

def initialAuthState : AuthState := ⟨none, none⟩

/-- Result of a call into the authenticator: the raised exception message if
any, and the instance state after the call. -/
structure RefreshResult where
  error : Option String
  state : AuthState
deriving DecidableEq, Repr

/-- `client.py` lines 68–91: `_refresh_access_token`. Source order inside the
`try`: POST (may raise), `raise_for_status()` (raising exactly for 400–599),
`response.json()` (may raise), the `"access_token" not in token_data` check,
then the two assignments — `self._access_token = token_data["access_token"]`
first, and only then `self._token_expires_at = utcnow() +
timedelta(seconds=expires_in - 300)` with `expires_in =
token_data.get("expires_in", 3600)`; a `TypeError` in that subtraction leaves
the expiry untouched after the token was already overwritten. -/
def _refresh_access_token (st : AuthState) (now : Int) (post : PostOutcome) :
    RefreshResult :=
  match post with
  | .raised => ⟨some "Failed to refresh access token: ConnectionError", st⟩
  | .response status body =>
    if raisesForStatus status then
      ⟨some "Failed to refresh access token: HTTPError", st⟩
    else
      match body with
      | none => ⟨some "Failed to refresh access token: JSONDecodeError", st⟩
      | some tokenData =>
        match tokenData with
        | Json.obj fields =>
          match fields.lookup "access_token" with
          | none =>
            ⟨some "Failed to refresh access token: No access_token in response",
              st⟩
          | some tok =>
            match (fields.lookup "expires_in").getD (Json.num 3600) with
            | Json.num n => ⟨none, ⟨some tok, some (now + n - 300)⟩⟩
            | _ =>
              ⟨some "Failed to refresh access token: TypeError",
                ⟨some tok, st.tokenExpiresAt⟩⟩
        | _ => ⟨some "Failed to refresh access token: TypeError", st⟩

/-- `client.py` line 64: the refresh condition `not self._access_token or not
self._token_expires_at or datetime.utcnow() >= self._token_expires_at` — the
cached token must be truthy (an empty string is not), the expiry must be set
(a `datetime` is always truthy), and now must be before it. -/
def needsRefresh (st : AuthState) (now : Int) : Bool :=
  (match st.accessToken with
   | none => true
   | some t => !t.pyTruthy) ||
  (match st.tokenExpiresAt with
   | none => true
   | some e => now ≥ e)

/-- Result of `get_access_token`: raised message if any, the state after the
call, the returned token, and whether a refresh (a network request) was
performed. -/
structure GetTokenResult where
  error : Option String
  state : AuthState
  token : Option Json
  refreshed : Bool
deriving DecidableEq, Repr

/-- `client.py` lines 62–66: `get_access_token` — refresh when `needsRefresh`,
then return `self._access_token`. -/
def get_access_token (st : AuthState) (now : Int) (post : PostOutcome) :
    GetTokenResult :=
  if needsRefresh st now then
    let r := _refresh_access_token st now post
    match r.error with
    | some e => ⟨some e, r.state, none, true⟩
    | none => ⟨none, r.state, r.state.accessToken, true⟩
  else ⟨none, st, st.accessToken, false⟩

/-! ## Report fetcher (`streams.py` `CampaignValuesReportsStream.get_records`,
lines 327–411): response handling after the single POST. -/

/-- The shape test of lines 381–385: `"data" in response_json and "attributes"
in response_json["data"] and "results" in response_json["data"]["attributes"]`
with Python's short-circuit `and` and container semantics — each `in` raises
`TypeError` on a non-container operand (e.g. a null or numeric `data`), and
each indexing step raises on a non-dict receiver; such an exception is caught
by the surrounding handler, logged, and re-raised. -/
def reportShapeCheck (rj : Json) : Except String Bool := do
  let b1 ← pyContains "data" rj
  if b1 then
    let dataV ← pyIndex rj "data"
    let b2 ← pyContains "attributes" dataV
    if b2 then
      let dataV2 ← pyIndex rj "data"
      let attrs ← pyIndex dataV2 "attributes"
      let b3 ← pyContains "results" attrs
      pure b3
    else pure false
  else pure false

/-- Append-with-overwrite of one field list onto a base (the `**statistics`
unpacking inside the record dict literal). -/
def JFields.updateWith (base : JFields) : JFields → JFields
  | .nil => base
  | .cons k v rest => JFields.updateWith (base.set k v) rest

/-- Lines 389–404: one record per entry of `results` — `groupings =
result.get("groupings", {})`, `statistics = result.get("statistics", {})`,
then the dict literal with `id`, the three grouping fields via `.get` (so
`None` when absent), and `**statistics` spread on top. -/
def reportRecordRow (reportId : Json) (result : Json) : Except String Json := do
  let groupings ← pyGetD result "groupings" (Json.obj .nil)
  let statistics ← pyGetD result "statistics" (Json.obj .nil)
  let campaignId ← pyGet groupings "campaign_id"
  let campaignMessageId ← pyGet groupings "campaign_message_id"
  let sendChannel ← pyGet groupings "send_channel"
  let base : JFields :=
    ((((JFields.nil.set "id" reportId).set "campaign_id" campaignId).set
        "campaign_message_id" campaignMessageId).set "send_channel" sendChannel)
  match statistics with
  | Json.obj sf => pure (Json.obj (base.updateWith sf))
  | _ => Except.error "TypeError"

/-- Lines 378–406: given the decoded 2xx body, the emitted records. When the
shape test evaluates to false, a warning is logged and zero records come back;
when it raises, the exception propagates (re-raised by the handler); when it
holds, `report_id = response_json["data"]["id"]` (a `KeyError` when `id` is
missing) and one record per iterated result entry. -/
def reportRecordsFromBody (rj : Json) : Except String (List Json) := do
  let shapeOk ← reportShapeCheck rj
  if shapeOk then
    let dataV ← pyIndex rj "data"
    let reportId ← pyIndex dataV "id"
    let attrs ← pyIndex dataV "attributes"
    let results ← pyIndex attrs "results"
    let items ← pyIterate results
    items.mapM (reportRecordRow reportId)
  else pure []

/-- The whole response-handling tail of `get_records`: `raise_for_status()`
(raising exactly for 400–599), `response.json()` (may raise), then
`reportRecordsFromBody`. -/
def reportGetRecords (status : Nat) (body : Option Json) :
    Except String (List Json) :=
  if raisesForStatus status then Except.error "HTTPError"
  else
    match body with
    | none => Except.error "JSONDecodeError"
    | some rj => reportRecordsFromBody rj

/-! ## Per-stream `post_process` hooks (`streams.py`)

Each returns `ok (some record)` when the Python method returns a record,
`ok none` if it were ever to return `None` (record suppression), and `error`
when it raises. -/

/-- `streams.py` lines 27–33: `EventsStream.post_process` — `row["datetime"] =
row["attributes"]["datetime"]; return row`. -/
def eventsPostProcess (row : Json) : Except String (Option Json) := do
  let attrs ← pyIndex row "attributes"
  let v ← pyIndex attrs "datetime"
  let row' ← pySet row "datetime" v
  pure (some row')

/-- `streams.py` lines 80–86: `CampaignsStream.post_process`. -/
def campaignsPostProcess (row : Json) : Except String (Option Json) := do
  let attrs ← pyIndex row "attributes"
  let v ← pyIndex attrs "updated_at"
  let row' ← pySet row "updated_at" v
  pure (some row')

/-- `streams.py` lines 109–115: `ProfilesStream.post_process`. -/
def profilesPostProcess (row : Json) : Except String (Option Json) := do
  let attrs ← pyIndex row "attributes"
  let v ← pyIndex attrs "updated"
  let row' ← pySet row "updated" v
  pure (some row')

/-- `streams.py` lines 179–185: `ListsStream.post_process`. -/
def listsPostProcess (row : Json) : Except String (Option Json) := do
  let attrs ← pyIndex row "attributes"
  let v ← pyIndex attrs "updated"
  let row' ← pySet row "updated" v
  pure (some row')

/-- `streams.py` lines 226–232: `FlowsStream.post_process`. -/
def flowsPostProcess (row : Json) : Except String (Option Json) := do
  let attrs ← pyIndex row "attributes"
  let v ← pyIndex attrs "updated"
  let row' ← pySet row "updated" v
  pure (some row')

/-- `streams.py` lines 250–256: `TemplatesStream.post_process`. -/
def templatesPostProcess (row : Json) : Except String (Option Json) := do
  let attrs ← pyIndex row "attributes"
  let v ← pyIndex attrs "updated"
  let row' ← pySet row "updated" v
  pure (some row')

/-- `streams.py` lines 205–207: `ListPersonStream.post_process` —
`row["list_id"] = context["list_id"]; return row`. -/
def listPersonPostProcess (row : Json) (context : Json) :
    Except String (Option Json) := do
  let v ← pyIndex context "list_id"
  let row' ← pySet row "list_id" v
  pure (some row')

/-- `streams.py` lines 149–155: `MetricsStream.post_process` — when
`row.get("attributes", {}).get("integration")` is truthy and
`integration.get("category")` is a dict, replace it in place by
`integration["category"].get("category")`; always `return row`. -/
def metricsPostProcess (row : Json) : Except String (Option Json) := do
  let attrsD ← pyGetD row "attributes" (Json.obj .nil)
  let integration ← pyGet attrsD "integration"
  if integration.pyTruthy then do
    let attrs ← pyIndex row "attributes"
    let integ ← pyIndex attrs "integration"
    let category ← pyGet integ "category"
    match category with
    | Json.obj cf => do
      let newCat := (cf.lookup "category").getD Json.null
      let integ' ← pySet integ "category" newCat
      let attrs' ← pySet attrs "integration" integ'
      let row' ← pySet row "attributes" attrs'
      pure (some row')
    | _ => pure (some row)
  else pure (some row)

/-! ## Helper lemmas -/

theorem exceptBindOk {α β : Type} {ma : Except String α} {f : α → Except String β}
    {r : β} (h : (ma >>= f) = Except.ok r) :
    ∃ a, ma = Except.ok a ∧ f a = Except.ok r := by
  cases ma with
  | ok a => exact ⟨a, rfl, h⟩
  | error e => simp [Bind.bind, Except.bind] at h

theorem dictLookup_withPageSize (desc : StreamDesc) (d : ParamDict) (key : String)
    (h : key ≠ "page[size]") : dictLookup (withPageSize desc d) key = dictLookup d key := by
  unfold withPageSize
  match desc.maxPageSize with
  | none => rfl
  | some n =>
    by_cases hn : n ≠ 0
    · simp [hn, dictLookup_dictInsert_ne _ _ _ _ h]
    · simp [hn]

theorem get_access_token_no_refresh (st : AuthState) (now : Int) (post : PostOutcome)
    (h : needsRefresh st now = false) :
    get_access_token st now post = ⟨none, st, st.accessToken, false⟩ := by
  unfold get_access_token
  rw [h]
  simp

theorem get_access_token_token_eq (st : AuthState) (now : Int) (post : PostOutcome)
    (h : (get_access_token st now post).error = none) :
    (get_access_token st now post).token = (get_access_token st now post).state.accessToken := by
  unfold get_access_token
  unfold get_access_token at h
  by_cases hr : needsRefresh st now
  · simp only [hr, if_true] at h ⊢
    match hm : (_refresh_access_token st now post).error with
    | some e => simp [hm] at h
    | none => simp [hm]
  · simp [hr]

/-! ## Claim theorems -/

/-- Claim C1 counterexample: for the events stream (replication key
`datetime`, `is_sorted`) called with a non-`None` continuation token whose
query is `page[cursor]=abc`, the returned parameter map contains a freshly
computed incremental `filter` (over the default epoch watermark) and a `sort`
parameter — the claim asserts that with a continuation token neither is
re-included. -/
theorem C1_counterexample :
    getUrlParams eventsDesc ⟨none⟩ none (some "page[cursor]=abc") =
      Except.ok
        [("page[cursor]", Json.str "abc"),
         ("sort", Json.str "datetime"),
         ("filter", Json.str "greater-than(datetime,2000-01-01T00:00:00+00:00)")] := by
  decide

/-- Claim C1 (amended): for every stream with a replication key, the
continuation's encoded query parameters are merged in, but the freshly
computed incremental `filter` (and `sort`, when the stream is sorted) is
emitted on every page, continuation pages included, overwriting any
same-named continuation key; keys other than `filter`, `sort` and
`page[size]` pass through from the continuation unchanged. -/
theorem C1_filter_on_every_page (desc : StreamDesc) (cfg : Config)
    (ts : Option String) (q : String) (rk T : String) (ps : ParamDict)
    (hrk : desc.replicationKey = some rk)
    (hwm : resolveWatermark cfg ts = Except.ok T)
    (hps : getUrlParams desc cfg ts (some q) = Except.ok ps) :
    dictLookup ps "filter" =
      some (Json.str ("greater-than(" ++ rk ++ "," ++ T ++ ")")) ∧
    (desc.isSorted = true → dictLookup ps "sort" = some (Json.str rk)) ∧
    (∀ key, key ≠ "filter" → key ≠ "sort" → key ≠ "page[size]" →
      dictLookup ps key =
        dictLookup (dictUpdate [] ((parseQsl q).map (fun p => (p.1, Json.str p.2)))) key) := by
  unfold getUrlParams at hps
  rw [hrk, hwm] at hps
  simp only [bind, Except.bind, pure, Except.pure, Except.ok.injEq] at hps
  subst hps
  refine ⟨?_, ?_, ?_⟩
  · rw [dictLookup_withPageSize _ _ _ (by decide)]
    exact dictLookup_dictInsert_self _ _ _
  · intro hs
    rw [dictLookup_withPageSize _ _ _ (by decide),
      dictLookup_dictInsert_ne _ _ _ _ (by decide), hs, if_pos rfl]
    exact dictLookup_dictInsert_self _ _ _
  · intro key h1 h2 h3
    rw [dictLookup_withPageSize _ _ _ h3, dictLookup_dictInsert_ne _ _ _ _ h1]
    by_cases hs : desc.isSorted
    · rw [if_pos hs, dictLookup_dictInsert_ne _ _ _ _ h2]
    · rw [if_neg hs]

/-- Claim C1 witness: the amended theorem applied to the events stream with
continuation query `page[cursor]=abc` and no configured start date. -/
theorem C1_witness :
    dictLookup
        [("page[cursor]", Json.str "abc"),
         ("sort", Json.str "datetime"),
         ("filter", Json.str "greater-than(datetime,2000-01-01T00:00:00+00:00)")]
        "filter" =
      some (Json.str "greater-than(datetime,2000-01-01T00:00:00+00:00)") := by
  have h := (C1_filter_on_every_page eventsDesc ⟨none⟩ none "page[cursor]=abc"
    "datetime" "2000-01-01T00:00:00+00:00"
    [("page[cursor]", Json.str "abc"),
     ("sort", Json.str "datetime"),
     ("filter", Json.str "greater-than(datetime,2000-01-01T00:00:00+00:00)")]
    (by decide) (by decide) (by decide)).1
  rw [h]
  congr 1

/-- Claim C2 counterexample: with no `select` list configured,
`discover_streams` returns no streams at all (the claim asserts every
declared stream is then included), even though eight streams are declared. -/
theorem C2_counterexample :
    discoverStreams [] = [] ∧ availableStreamNames.length = 8 := by
  decide

/-- Claim C2 (amended): with no `select` list, `discover_streams` includes no
stream; with a `select` list, a stream is included exactly when its name is
the stream-name component of some non-`!` directive and of no `!` directive. -/
theorem C2_selection_gate :
    discoverStreams [] = [] ∧
    ∀ select n, n ∈ discoverStreams select ↔
      n ∈ availableStreamNames ∧
        n ∈ (parseSelect select).1 ∧ n ∉ (parseSelect select).2 := by
  refine ⟨by decide, ?_⟩
  intro select n
  constructor
  · intro h
    simp only [discoverStreams, List.mem_filter, Bool.and_eq_true,
      Bool.not_eq_true'] at h
    obtain ⟨h1, h2, h3⟩ := h
    exact ⟨h1, by simpa using h3, by simpa using h2⟩
  · rintro ⟨h1, h2, h3⟩
    simp only [discoverStreams, List.mem_filter, Bool.and_eq_true,
      Bool.not_eq_true']
    exact ⟨h1, by simpa using h3, by simpa using h2⟩

/-- Claim C3 counterexample: with directives `["events", "!events.email"]`,
the `events` stream is not included in the run (the claim asserts it runs). -/
theorem C3_counterexample :
    "events" ∉ discoverStreams ["events", "!events.email"] := by
  decide

/-- Claim C3 (amended): with directives `["events", "!events.email"]`, no
stream is included: the `!` directive is reduced to its stream-name component
`events`, which puts the whole events stream in the excluded set, and
exclusion wins over the inclusion entry. -/
theorem C3_exclusion_drops_stream :
    discoverStreams ["events", "!events.email"] = [] ∧
    (parseSelect ["events", "!events.email"]).2 = ["events"] ∧
    (parseSelect ["events", "!events.email"]).1 = ["events"] := by
  decide

/-- Claim C4 counterexample: on a decoded body that lacks a `links` key,
`get_next_url` raises `AttributeError` (the claim asserts it never raises on
such a body). -/
theorem C4_counterexample :
    get_next_url (Json.obj .nil) = Except.error "AttributeError" := by
  decide

/-- Claim C4 (amended): provided the body is an object whose `links` field is
an object, the paginator's next-continuation extraction returns `None` when
`links.next` is absent, null, or an empty string, and the exact string value
otherwise; but on an object body with no `links` key at all, `get_next_url`
raises instead of reporting exhaustion. -/
theorem C4_next_link_extraction :
    (∀ bf lf, JFields.lookup "links" bf = some (Json.obj lf) →
      ((JFields.lookup "next" lf = none ∨ JFields.lookup "next" lf = some Json.null ∨
          JFields.lookup "next" lf = some (Json.str "")) →
        paginatorGetNext (Json.obj bf) = Except.ok none) ∧
      (∀ s, s ≠ "" → JFields.lookup "next" lf = some (Json.str s) →
        paginatorGetNext (Json.obj bf) = Except.ok (some s))) ∧
    (∀ bf, JFields.lookup "links" bf = none →
      get_next_url (Json.obj bf) = Except.error "AttributeError") := by
  constructor
  · intro bf lf hl
    constructor
    · rintro (h | h | h) <;>
        simp [paginatorGetNext, get_next_url, pyGet, hl, h, Json.pyTruthy,
          bind, Except.bind, pure, Except.pure]
    · intro s hs h
      simp [paginatorGetNext, get_next_url, pyGet, hl, h, Json.pyTruthy, hs,
        bind, Except.bind, pure, Except.pure]
  · intro bf hl
    simp [get_next_url, pyGet, hl, bind, Except.bind]

/-- Claim C4 witness: the amended theorem applied to the concrete bodies
`\x7b"links": \x7b"next": null\x7d\x7d` and `\x7b\x7d`. -/
theorem C4_witness :
    paginatorGetNext
        (Json.obj (.cons "links" (Json.obj (.cons "next" Json.null .nil)) .nil)) =
      Except.ok none ∧
    get_next_url (Json.obj .nil) = Except.error "AttributeError" := by
  refine ⟨?_, ?_⟩
  · exact (C4_next_link_extraction.1 (.cons "links" (Json.obj (.cons "next" Json.null .nil)) .nil)
      (.cons "next" Json.null .nil) (by decide)).1 (Or.inr (Or.inl (by decide)))
  · exact C4_next_link_extraction.2 .nil (by decide)

/-- Claim C5 counterexample: when the first refresh caches the token `""`
(with lifetime 3600 at time 0, so cached expiry 3300), a second call at time
100 — strictly before the cached expiry — nevertheless performs a network
request, because `not self._access_token` is true for an empty string. -/
theorem C5_counterexample :
    (get_access_token initialAuthState 0
        (.response 200 (some (Json.obj (.cons "access_token" (Json.str "")
          (.cons "expires_in" (Json.num 3600) .nil)))))).error = none ∧
    (get_access_token initialAuthState 0
        (.response 200 (some (Json.obj (.cons "access_token" (Json.str "")
          (.cons "expires_in" (Json.num 3600) .nil)))))).state =
      ⟨some (Json.str ""), some 3300⟩ ∧
    (100 : Int) < 3300 ∧
    (get_access_token ⟨some (Json.str ""), some 3300⟩ 100
        PostOutcome.raised).refreshed = true := by
  decide

/-- Claim C5 (amended): for two successive calls to `get_access_token` where
the first succeeds and caches a non-empty token string, and the second occurs
strictly before the cached expiry instant, the second call performs no
network request, returns the same token as the first, and leaves the state
unchanged; the claim fails only when the cached token string is empty (a
falsy value re-triggers a refresh). -/
theorem C5_cached_token_reused (st0 : AuthState) (now1 now2 : Int)
    (post1 post2 : PostOutcome) (t : String) (e : Int)
    (h1 : (get_access_token st0 now1 post1).error = none)
    (ht : (get_access_token st0 now1 post1).token = some (Json.str t))
    (hne : t ≠ "")
    (he : (get_access_token st0 now1 post1).state.tokenExpiresAt = some e)
    (hlt : now2 < e) :
    (get_access_token (get_access_token st0 now1 post1).state now2 post2).refreshed
        = false ∧
    (get_access_token (get_access_token st0 now1 post1).state now2 post2).token =
      (get_access_token st0 now1 post1).token ∧
    (get_access_token (get_access_token st0 now1 post1).state now2 post2).state =
      (get_access_token st0 now1 post1).state := by
  have hacc : (get_access_token st0 now1 post1).state.accessToken =
      some (Json.str t) := by
    rw [← get_access_token_token_eq st0 now1 post1 h1]
    exact ht
  have hnr : needsRefresh (get_access_token st0 now1 post1).state now2 = false := by
    unfold needsRefresh
    rw [hacc, he]
    simp [Json.pyTruthy, hne, not_le.mpr hlt]
  rw [get_access_token_no_refresh _ now2 post2 hnr]
  exact ⟨rfl, by rw [hacc, ht], rfl⟩

/-- Claim C5 witness: the amended theorem applied to a state already holding
token `"tok"` with cached expiry 3300, first call at time 0, second at time
100. -/
theorem C5_witness :
    (get_access_token
        (get_access_token ⟨some (Json.str "tok"), some 3300⟩ 0
            PostOutcome.raised).state
        100 PostOutcome.raised).refreshed = false :=
  (C5_cached_token_reused ⟨some (Json.str "tok"), some 3300⟩ 0 100
    PostOutcome.raised PostOutcome.raised "tok" 3300
    (by decide) (by decide) (by decide) (by decide) (by decide)).1

/-- Claim C9 counterexample: a refresh whose 2xx body is
`\x7b"access_token": "new", "expires_in": "3600"\x7d` (a string lifetime)
raises, yet the cached token has been overwritten with `"new"` while the
cached expiry keeps its old value — a partial update on failure, which the
claim asserts can never happen. -/
theorem C9_counterexample :
    _refresh_access_token ⟨some (Json.str "old"), some 1000⟩ 5000
        (.response 200 (some (Json.obj (.cons "access_token" (Json.str "new")
          (.cons "expires_in" (Json.str "3600") .nil))))) =
      ⟨some "Failed to refresh access token: TypeError",
        ⟨some (Json.str "new"), some 1000⟩⟩ := by
  decide

/-- Claim C9 (amended): when the refresh fails because the POST raises,
returns an HTTP-error status (400–599, exactly where `raise_for_status`
raises), returns an undecodable body, or returns an object body lacking
`access_token`, `_refresh_access_token` raises and leaves the cached token
and expiry exactly as they were; but when a body carries `access_token`
together with a non-numeric `expires_in`, the raise happens after the cached
token has already been overwritten, so the state is partially updated. -/
theorem C9_early_failures_keep_state (st : AuthState) (now : Int) :
    ((_refresh_access_token st now PostOutcome.raised).state = st ∧
      (_refresh_access_token st now PostOutcome.raised).error ≠ none) ∧
    (∀ status body, 400 ≤ status → status < 600 →
      (_refresh_access_token st now (.response status body)).state = st ∧
      (_refresh_access_token st now (.response status body)).error ≠ none) ∧
    (∀ status, status < 400 →
      (_refresh_access_token st now (.response status none)).state = st ∧
      (_refresh_access_token st now (.response status none)).error ≠ none) ∧
    (∀ status fields, status < 400 →
      JFields.lookup "access_token" fields = none →
      (_refresh_access_token st now (.response status (some (Json.obj fields)))).state
          = st ∧
      (_refresh_access_token st now (.response status (some (Json.obj fields)))).error
          ≠ none) ∧
    (∀ status fields tok, status < 400 →
      JFields.lookup "access_token" fields = some tok →
      (JFields.lookup "expires_in" fields).getD (Json.num 3600) = Json.str "3600" →
      (_refresh_access_token st now (.response status (some (Json.obj fields)))).state
          = ⟨some tok, st.tokenExpiresAt⟩ ∧
      (_refresh_access_token st now (.response status (some (Json.obj fields)))).error
          ≠ none) := by
  refine ⟨⟨rfl, by simp [_refresh_access_token]⟩, ?_, ?_, ?_, ?_⟩
  · intro status body h1 h2
    simp [_refresh_access_token, raisesForStatus, h1, h2]
  · intro status h
    simp [_refresh_access_token, raisesForStatus, Nat.not_le.mpr h]
  · intro status fields h hl
    simp [_refresh_access_token, raisesForStatus, Nat.not_le.mpr h, hl]
  · intro status fields tok h hl hex
    simp [_refresh_access_token, raisesForStatus, Nat.not_le.mpr h, hl, hex]

/-- Claim C9 witness: the amended theorem applied to status 500 with an
arbitrary body and to a 200 body lacking `access_token`. -/
theorem C9_witness :
    (_refresh_access_token initialAuthState 0 (.response 500 none)).state =
        initialAuthState ∧
    (_refresh_access_token initialAuthState 0
        (.response 200 (some (Json.obj .nil)))).error ≠ none := by
  refine ⟨?_, ?_⟩
  · exact ((C9_early_failures_keep_state initialAuthState 0).2.1 500 none
      (by decide) (by decide)).1
  · exact ((C9_early_failures_keep_state initialAuthState 0).2.2.2.1 200 .nil
      (by decide) (by decide)).2

/-- Claim C6: date normalization accepts a full ISO-8601 timestamp with or
without a trailing `Z` (normalized to an explicit `+00:00` offset — every
successful result carries that suffix), maps a bare `YYYY-MM-DD` date to UTC
midnight, rejects anything neither parser accepts with a `ValueError`, and,
with config `start_date` `"2023-06-01"` and no persisted cursor, the events
stream's first-page `filter` uses the watermark
`2023-06-01T00:00:00+00:00` exactly. -/
theorem C6_date_normalization :
    _isodate_from_date_string "2023-06-01T12:30:45" =
        Except.ok "2023-06-01T12:30:45+00:00" ∧
    _isodate_from_date_string "2023-06-01T12:30:45Z" =
        Except.ok "2023-06-01T12:30:45+00:00" ∧
    _isodate_from_date_string "2023-06-01" =
        Except.ok "2023-06-01T00:00:00+00:00" ∧
    (∀ s r, _isodate_from_date_string s = Except.ok r →
      ∃ p, r = p ++ "+00:00") ∧
    (∀ s, fromisoformatM (pyReplaceZ s) = none → strptimeYmdM s = none →
      _isodate_from_date_string s = Except.error "ValueError") ∧
    _isodate_from_date_string "06/01/2023" = Except.error "ValueError" ∧
    getUrlParams eventsDesc ⟨some "2023-06-01"⟩ none none =
      Except.ok
        [("sort", Json.str "datetime"),
         ("filter", Json.str "greater-than(datetime,2023-06-01T00:00:00+00:00)")] := by
  refine ⟨by decide, by decide, by decide, ?_, ?_, by decide, by decide⟩
  · intro s r h
    have htz : isoTz (some 0) = "+00:00" := by decide
    unfold _isodate_from_date_string at h
    split at h
    · rename_i dt heq
      injection h with h
      refine ⟨isoMain { dt with tzOffsetMinutes := some 0 }, ?_⟩
      rw [← h]
      simp [isoformat, htz]
    · split at h
      · rename_i dt heq
        injection h with h
        refine ⟨isoMain { dt with tzOffsetMinutes := some 0 }, ?_⟩
        rw [← h]
        simp [isoformat, htz]
      · cases h
  · intro s h1 h2
    unfold _isodate_from_date_string
    rw [h1, h2]

/-- Claim C6 witness: the quantified parts of the theorem applied to the
concrete inputs `"2023-06-01"` (successful, so the result carries the
`+00:00` suffix) and `"06/01/2023"` (rejected). -/
theorem C6_witness :
    (∃ p, ("2023-06-01T00:00:00+00:00" : String) = p ++ "+00:00") ∧
    _isodate_from_date_string "06/01/2023" = Except.error "ValueError" := by
  refine ⟨?_, ?_⟩
  · exact C6_date_normalization.2.2.2.1 "2023-06-01" _ (by decide)
  · exact C6_date_normalization.2.2.2.2.1 "06/01/2023" (by decide) (by decide)

theorem andFilterString (T : String) :
    "and(" ++ ("greater-than(" ++ "updated_at" ++ "," ++ T ++ ")") ++ "," ++
        "equals(messages.channel,'sms')" ++ ")" =
      "and(greater-than(updated_at," ++ T ++ "),equals(messages.channel,'sms'))" := by
  apply String.ext
  simp only [String.data_append, List.append_assoc, List.cons_append,
    List.nil_append]

/-- Claim C7: for the campaigns stream on a first page (no continuation),
given the statically declared sms partition context and any resolved
watermark `T`, the combined `filter` parameter is exactly
`and(greater-than(updated_at,T),equals(messages.channel,'sms'))` — the
partition filter is conjoined with, and does not replace, the incremental
filter. -/
theorem C7_partition_filter_conjoined (cfg : Config) (ts : Option String)
    (T : String) (hwm : resolveWatermark cfg ts = Except.ok T) :
    Json.obj (.cons "filter" (Json.str "equals(messages.channel,'sms')") .nil)
        ∈ campaignsPartitions ∧
    campaignsGetUrlParams cfg ts
        (some (Json.obj
          (.cons "filter" (Json.str "equals(messages.channel,'sms')") .nil)))
        none =
      Except.ok
        [("sort", Json.str "updated_at"),
         ("filter",
          Json.str ("and(greater-than(updated_at," ++ T ++
            "),equals(messages.channel,'sms'))"))] := by
  refine ⟨by simp [campaignsPartitions], ?_⟩
  rw [← andFilterString T]
  unfold campaignsGetUrlParams getUrlParams
  rw [show campaignsDesc.replicationKey = some "updated_at" from rfl, hwm]
  simp [bind, Except.bind, pure, Except.pure, campaignsDesc, withPageSize,
    dictInsert, dictLookup, dictUpdate, pyIndex, Json.pyTruthy, Json.pystr,
    JFields.lookup]

/-- Claim C7 witness: the theorem at the concrete watermark resolved from no
cursor and no configured start date (the epoch default). -/
theorem C7_witness :
    campaignsGetUrlParams ⟨none⟩ none
        (some (Json.obj
          (.cons "filter" (Json.str "equals(messages.channel,'sms')") .nil)))
        none =
      Except.ok
        [("sort", Json.str "updated_at"),
         ("filter",
          Json.str ("and(greater-than(updated_at," ++ "2000-01-01T00:00:00+00:00" ++
            "),equals(messages.channel,'sms'))"))] :=
  (C7_partition_filter_conjoined ⟨none⟩ none "2000-01-01T00:00:00+00:00"
    (by decide)).2

/-- The report-scenario 2xx body from the specification:
`data.id = "r1"`, one result with grouping `campaign_id = "c1"` and
statistic `opens = 5`. -/
def reportScenarioBody : Json :=
  Json.obj (.cons "data" (Json.obj (.cons "id" (Json.str "r1")
    (.cons "attributes" (Json.obj (.cons "results" (Json.arr (.cons
      (Json.obj (.cons "groupings"
        (Json.obj (.cons "campaign_id" (Json.str "c1") .nil))
        (.cons "statistics" (Json.obj (.cons "opens" (Json.num 5) .nil)) .nil)))
      .nil)) .nil)) .nil))) .nil)

/-- The record the code actually emits for `reportScenarioBody`: the three
claimed fields plus `campaign_message_id` and `send_channel`, both `None`
(the record literal always includes them via `.get`). -/
def reportScenarioRecord : Json :=
  Json.obj (.cons "id" (Json.str "r1") (.cons "campaign_id" (Json.str "c1")
    (.cons "campaign_message_id" Json.null (.cons "send_channel" Json.null
      (.cons "opens" (Json.num 5) .nil)))))

/-- Claim C8 counterexample: for the scenario body the emitted record is not
equal to the claimed three-field record — it additionally carries
`campaign_message_id: None` and `send_channel: None`. -/
theorem C8_counterexample :
    reportGetRecords 200 (some reportScenarioBody) =
        Except.ok [reportScenarioRecord] ∧
    reportScenarioRecord ≠
      Json.obj (.cons "id" (Json.str "r1") (.cons "campaign_id" (Json.str "c1")
        (.cons "opens" (Json.num 5) .nil))) := by
  decide

/-- Claim C8 (amended): the scenario body yields exactly one record carrying
`id = "r1"`, `campaign_id = "c1"`, `opens = 5` — together with
`campaign_message_id` and `send_channel` set to `None`; a 2xx body on which
the `data.attributes.results` membership test evaluates to false yields zero
records without raising; but a 2xx body on which the membership chain itself
raises — such as `\x7b"data": null\x7d` — re-raises the exception instead of
yielding zero records. -/
theorem C8_report_flattening :
    reportGetRecords 200 (some reportScenarioBody) =
        Except.ok [reportScenarioRecord] ∧
    (∀ rj, reportShapeCheck rj = Except.ok false →
      reportGetRecords 200 (some rj) = Except.ok []) ∧
    reportGetRecords 200 (some (Json.obj (.cons "data" Json.null .nil))) =
      Except.error "TypeError" := by
  refine ⟨by decide, ?_, by decide⟩
  intro rj h
  simp [reportGetRecords, raisesForStatus, reportRecordsFromBody, h, bind,
    Except.bind, pure, Except.pure]

/-- Claim C8 witness: the amended theorem applied to the empty-object body,
whose membership test evaluates to false without raising. -/
theorem C8_witness :
    reportGetRecords 200 (some (Json.obj .nil)) = Except.ok [] :=
  C8_report_flattening.2.1 (Json.obj .nil) (by decide)

/-- Claim C10: for every stream's `post_process`, an input row satisfying the
hook's field preconditions produces a (non-`None`) record: the hoisting
streams need `row["attributes"]` to contain the replication-key field, the
listperson stream needs `list_id` in the context, and the metrics stream
returns a record whenever it returns at all — no stream ever exercises the
record-suppression path. -/
theorem C10_post_process_never_suppresses :
    (∀ rf attrs v, JFields.lookup "attributes" rf = some (Json.obj attrs) →
      JFields.lookup "datetime" attrs = some v →
      ∃ j, eventsPostProcess (Json.obj rf) = Except.ok (some j)) ∧
    (∀ rf attrs v, JFields.lookup "attributes" rf = some (Json.obj attrs) →
      JFields.lookup "updated_at" attrs = some v →
      ∃ j, campaignsPostProcess (Json.obj rf) = Except.ok (some j)) ∧
    (∀ rf attrs v, JFields.lookup "attributes" rf = some (Json.obj attrs) →
      JFields.lookup "updated" attrs = some v →
      (∃ j, profilesPostProcess (Json.obj rf) = Except.ok (some j)) ∧
      (∃ j, listsPostProcess (Json.obj rf) = Except.ok (some j)) ∧
      (∃ j, flowsPostProcess (Json.obj rf) = Except.ok (some j)) ∧
      (∃ j, templatesPostProcess (Json.obj rf) = Except.ok (some j))) ∧
    (∀ rf cf v, JFields.lookup "list_id" cf = some v →
      ∃ j, listPersonPostProcess (Json.obj rf) (Json.obj cf) =
        Except.ok (some j)) ∧
    (∀ row r, metricsPostProcess row = Except.ok r → ∃ j, r = some j) := by
  refine ⟨?_, ?_, ?_, ?_, ?_⟩
  · intro rf attrs v h1 h2
    exact ⟨Json.obj (rf.set "datetime" v), by simp [eventsPostProcess, pyIndex,
      h1, h2, pySet, bind, Except.bind, pure, Except.pure]⟩
  · intro rf attrs v h1 h2
    exact ⟨Json.obj (rf.set "updated_at" v), by simp [campaignsPostProcess,
      pyIndex, h1, h2, pySet, bind, Except.bind, pure, Except.pure]⟩
  · intro rf attrs v h1 h2
    refine ⟨⟨Json.obj (rf.set "updated" v), ?_⟩,
      ⟨Json.obj (rf.set "updated" v), ?_⟩,
      ⟨Json.obj (rf.set "updated" v), ?_⟩,
      ⟨Json.obj (rf.set "updated" v), ?_⟩⟩ <;>
      simp [profilesPostProcess, listsPostProcess, flowsPostProcess,
        templatesPostProcess, pyIndex, h1, h2, pySet, bind, Except.bind,
        pure, Except.pure]
  · intro rf cf v h1
    exact ⟨Json.obj (rf.set "list_id" v), by simp [listPersonPostProcess,
      pyIndex, h1, pySet, bind, Except.bind, pure, Except.pure]⟩
  · intro row r h
    unfold metricsPostProcess at h
    obtain ⟨attrsD, _, h⟩ := exceptBindOk h
    obtain ⟨integration, _, h⟩ := exceptBindOk h
    by_cases hb : integration.pyTruthy = true
    · rw [if_pos hb] at h
      obtain ⟨attrs, _, h⟩ := exceptBindOk h
      obtain ⟨integ, _, h⟩ := exceptBindOk h
      obtain ⟨category, _, h⟩ := exceptBindOk h
      match category, h with
      | Json.null, h => exact ⟨row, by simpa [pure, Except.pure] using h.symm⟩
      | Json.str s, h => exact ⟨row, by simpa [pure, Except.pure] using h.symm⟩
      | Json.num n, h => exact ⟨row, by simpa [pure, Except.pure] using h.symm⟩
      | Json.bool b, h => exact ⟨row, by simpa [pure, Except.pure] using h.symm⟩
      | Json.arr es, h => exact ⟨row, by simpa [pure, Except.pure] using h.symm⟩
      | Json.obj cf, h => ?_
      obtain ⟨integ2, _, h⟩ := exceptBindOk h
      obtain ⟨attrs2, _, h⟩ := exceptBindOk h
      obtain ⟨row2, _, h⟩ := exceptBindOk h
      exact ⟨row2, by simpa [pure, Except.pure] using h.symm⟩
    · rw [if_neg hb] at h
      exact ⟨row, by simpa [pure, Except.pure] using h.symm⟩

/-- Claim C10 witness: the theorem applied to concrete rows for the events
and listperson streams. -/
theorem C10_witness :
    (∃ j, eventsPostProcess
        (Json.obj (.cons "attributes"
          (Json.obj (.cons "datetime" (Json.str "2023-01-01T00:00:00+00:00") .nil))
          .nil)) = Except.ok (some j)) ∧
    (∃ j, listPersonPostProcess (Json.obj .nil)
        (Json.obj (.cons "list_id" (Json.str "L1") .nil)) =
      Except.ok (some j)) := by
  refine ⟨?_, ?_⟩
  · exact C10_post_process_never_suppresses.1
      (.cons "attributes"
        (Json.obj (.cons "datetime" (Json.str "2023-01-01T00:00:00+00:00") .nil))
        .nil)
      (.cons "datetime" (Json.str "2023-01-01T00:00:00+00:00") .nil)
      (Json.str "2023-01-01T00:00:00+00:00") (by decide) (by decide)
  · exact C10_post_process_never_suppresses.2.2.2.1 .nil
      (.cons "list_id" (Json.str "L1") .nil) (Json.str "L1") (by decide)

end TapKlaviyo
